import Mathlib

/-!
Verification of the UserManagementAPI repository: a shallow embedding of the
service-lifecycle core (CLI entry point, service composition, the facet-style
service runner described by the specification) and of the user CRUD layer
(database service operations and HTTP handlers), with theorems settling the
specification's claims against the code.
-/

namespace UserManagementAPI

/-! ## CLI entry point (app/cli.py `run`, app/users/cli.py `run`)

Both `run` commands retrieve the event loop and settings from the typer
context, build the service with `get_service`, and execute
`loop.run_until_complete(service.run())`.  Each `run` is decorated with
loguru's bare `@logger.catch`, whose default arguments are
`reraise=False, default=None`: an exception raised inside the wrapped
function is logged at ERROR level and suppressed, and the wrapper returns
`None`, so typer reports success and the process exits with status 0. -/

/-- Outcome of one process invocation of the CLI `run` command: the process
exit status and the list of errors written to the log. -/
structure CLIOutcome where
  exit_code : Nat
  logged_errors : List String
deriving DecidableEq, Repr

/-- The `run` command of `app/cli.py` (identical in structure to
`app/users/cli.py`): the body awaits the service's `run`; its `@logger.catch`
decorator (loguru defaults: `reraise=False`) logs a raised exception and
suppresses it, after which typer exits the process with status 0; a normal
return also exits with status 0. -/
def cli_run (serviceRun : Except String Unit) : CLIOutcome :=
  match serviceRun with
  | .ok _ => { exit_code := 0, logged_errors := [] }
  | .error e => { exit_code := 0, logged_errors := [e] }

/-! ## Lifecycle units defined in the repository

`BaseAPIService.start` builds a uvicorn server and registers `server.serve()`
as a background task; `BaseAPIService.stop` only logs
"Stop API service {title}".  `BaseDatabaseService.start` logs
"Start Database service"; `BaseDatabaseService.stop` logs
"Stop Database service".  Neither `stop` touches any unit attribute and
neither can raise. -/

/-- Mutable runtime state of a lifecycle unit: the background tasks it has
registered with the runner via `add_task`. -/
structure UnitState where
  tasks : List String
deriving DecidableEq, Repr

/-- Constructor-injected data of `BaseAPIService` (`_title`, `_version`,
`_port`). -/
structure APIServiceData where
  title : String
  version : String
  port : Nat
deriving DecidableEq, Repr

/-- `BaseAPIService.start`: logs "Start API service {title}" and registers the
uvicorn `server.serve()` coroutine as a background task. -/
def BaseAPIService.start (svc : APIServiceData) (st : UnitState) (log : List String) :
    Except String (UnitState × List String) :=
  .ok ({ tasks := st.tasks ++ ["uvicorn.serve"] },
       log ++ ["Start API service " ++ svc.title])

/-- `BaseAPIService.stop`: its entire body is one `logger.info` call; it reads
and writes no unit attribute and cannot raise. -/
def BaseAPIService.stop (svc : APIServiceData) (st : UnitState) (log : List String) :
    Except String (UnitState × List String) :=
  .ok (st, log ++ ["Stop API service " ++ svc.title])

/-- `BaseDatabaseService.start`: its entire body is one `logger.info` call. -/
def BaseDatabaseService.start (st : UnitState) (log : List String) :
    Except String (UnitState × List String) :=
  .ok (st, log ++ ["Start Database service"])

/-- `BaseDatabaseService.stop`: its entire body is one `logger.info` call; it
reads and writes no unit attribute and cannot raise. -/
def BaseDatabaseService.stop (st : UnitState) (log : List String) :
    Except String (UnitState × List String) :=
  .ok (st, log ++ ["Stop Database service"])

/-! ## The embedded model-training script
(app/users/api/rest/users/dependencies.py)

The module body of `dependencies.py` — executed whenever the module is
imported — builds a pandas DataFrame of five hard-coded users, fits a
RandomForestClassifier on it, and dumps the fitted model to `model.joblib`.
`handlers.py` does `from .dependencies import get_path_user,
predict_user_activity`, so importing the handlers module executes that body.
The `get_user` handler awaits `predict_user_activity(user)`, which loads the
dumped model and calls `model.predict_proba`. -/

/-- Observable side effects of the user REST layer. -/
inductive Effect where
  | trainModel
  | dumpModelToFile
  | loadModelFromFile
  | predictActivity
  | dbSelectUser
deriving DecidableEq, Repr

/-- Effects of executing the module-level statements of
`app/users/api/rest/users/dependencies.py`: the script fits the random-forest
model and dumps it to `model.joblib` at import time. -/
def importDependenciesModule : List Effect := [.trainModel, .dumpModelToFile]

/-- Effects of importing `app/users/api/rest/users/handlers.py`: its
`from .dependencies import ...` triggers the module body of
`dependencies.py`. -/
def importHandlersModule : List Effect := importDependenciesModule

/-- Effects of `predict_user_activity`: loads `model.joblib` and calls
`model.predict_proba` on the prepared user data. -/
def predict_user_activity_effects : List Effect := [.loadModelFromFile, .predictActivity]

/-- Effects of the `get_user` handler (GET /users/{user_id}): resolves the
user through `get_path_user` (a database select) and then awaits
`predict_user_activity(user)`. -/
def get_user_handler_effects : List Effect := [.dbSelectUser] ++ predict_user_activity_effects

/-- Effects of the `get_users` handler (GET /users/): database selects only;
it builds every `UserResponse` with `activity_probability=None` and never
touches the model. -/
def get_users_handler_effects : List Effect := [.dbSelectUser]

/-! ## User data model (app/users/database/models.py) and database service
(app/users/database/service.py) -/

/-- Modelled from the spec: the `Empty` sentinel imported from
`app.common.utils.empty` (module absent from the sources); a unique marker
object distinguishing "argument not supplied" from an explicit value
(including an explicit `None`), tested with `is not Empty`. -/
inductive Emptyable (α : Type) where
  | empty
  | value (a : α)
deriving DecidableEq, Repr

/-- A row of the `users` table: `id` primary key, unique `username` and
`email`, `registration_date` and `updated_registration_date` timestamps.
`username`/`email` are `Option String` because `Service.update_user` accepts
`str | None` for either field. -/
structure User where
  id : Int
  username : Option String
  email : Option String
  registration_date : Int
  updated_registration_date : Int
deriving DecidableEq, Repr

/-- The SQLAlchemy `scalar_one_or_none` applied to the rows matched by a
select: `none` for no row, the row for exactly one, and a raised
`MultipleResultsFound` for more than one. -/
def scalarOneOrNone (rows : List User) : Except String (Option User) :=
  match rows with
  | [] => .ok none
  | [u] => .ok (some u)
  | _ :: _ :: _ => .error "MultipleResultsFound"

/-- `Service.get_user` as invoked by `get_path_user` (only the `user_id`
filter supplied, `email` left `Empty`): selects the users whose `id` equals
`user_id` and applies `scalar_one_or_none`. -/
def Service.get_user (store : List User) (user_id : Int) : Except String (Option User) :=
  scalarOneOrNone (store.filter (fun u => u.id == user_id))

/-- FastAPI HTTP exception: status code and detail message. -/
structure HTTPException where
  status_code : Nat
  detail : String
deriving DecidableEq, Repr

/-- `HTTPNotFound` from app/common/api/exceptions.py: status 404 with detail
"Not found.". -/
def HTTPNotFound : HTTPException :=
  { status_code := 404, detail := "Not found." }

/-- Errors that can escape an HTTP dependency: an HTTP exception raised on
purpose, or an unexpected database-layer exception. -/
inductive APIError where
  | http (e : HTTPException)
  | db (msg : String)
deriving DecidableEq, Repr

/-- `get_path_user` from app/users/api/rest/users/dependencies.py: opens a
read transaction, calls `Service.get_user` with the path's `user_id`, raises
`HTTPNotFound()` when the result is `None`, and otherwise returns the user.
The second component is the store after the call (the transaction only
reads). -/
def get_path_user (store : List User) (user_id : Int) :
    Except APIError User × List User :=
  match Service.get_user store user_id with
  | .error m => (.error (.db m), store)
  | .ok none => (.error (.http HTTPNotFound), store)
  | .ok (some u) => (.ok u, store)

/-- `Service.update_user` from app/users/database/service.py, effect on the
user object passed in: assigns `user.username` when the `username` argument
`is not Empty`, then assigns `user.email` when the `email` argument
`is not Empty`; no other attribute is touched, and the function returns the
very user object it received. -/
def Service.update_user (user : User)
    (username : Emptyable (Option String)) (email : Emptyable (Option String)) :
    User :=
  let u1 := match username with
    | .empty => user
    | .value v => { user with username := v }
  match email with
  | .empty => u1
  | .value v => { u1 with email := v }

/-- `Service.update_user` at the store level: the mutated object is flushed by
`session.add(user)`, so the row with the user's id holds the updated values
and every other row is untouched; the returned object is the passed-in
user. -/
def Service.update_user_store (store : List User) (user : User)
    (username : Emptyable (Option String)) (email : Emptyable (Option String)) :
    User × List User :=
  let u := Service.update_user user username email
  (u, store.map (fun w => if w.id = user.id then u else w))

/-- `Service.get_users`: select users ordered by `registration_date`
descending, with `offset (page - 1) * per_page` and `limit per_page`. -/
def Service.get_users (store : List User) (page : Nat) (per_page : Nat) : List User :=
  let ordered := store.mergeSort (fun a b => decide (b.registration_date ≤ a.registration_date))
  (ordered.drop ((page - 1) * per_page)).take per_page

/-- `Service.get_user_count`: `select count(users.id)`. -/
def Service.get_user_count (store : List User) : Nat :=
  store.length

/-- Modelled from the spec: the `Pagination` object produced by the
`app.common.api.dependencies.pagination` dependency (module absent from the
sources): the `page` and `per_page` query parameters carried to the
handler. -/
structure Pagination where
  page : Nat
  per_page : Nat
deriving DecidableEq, Repr

/-- The body of `UserListResponse` as filled in by the `get_users` handler. -/
structure UserListResponse where
  data : List User
  page : Nat
  per_page : Nat
  total_items : Nat
  total_pages : Int
deriving DecidableEq, Repr

/-- The `get_users` handler (GET /users/): reads one page of users and the
total count in one transaction, computes
`total_pages = -(total_users // -per_page)` with Python floor division
(`Int.fdiv`), and returns the page, the pagination echo, the total count and
the page count. -/
def get_users_handler (store : List User) (p : Pagination) : UserListResponse :=
  let users_db := Service.get_users store p.page p.per_page
  let total_users := Service.get_user_count store
  let total_pages : Int := -(Int.fdiv (total_users : Int) (-(p.per_page : Int)))
  { data := users_db
    page := p.page
    per_page := p.per_page
    total_items := total_users
    total_pages := total_pages }

/-! ## Dependency composition (app/service.py, app/users/service.py,
app/users/api/service.py, app/users/database/service.py)

`get_service` chains: the app service wraps the users service, which is built
from an API service, which is built from a database service.  The API
service's `version` constructor argument is `get_version() or "0.0.0"`, and
`get_version` (app/common/utils/package.py) reads
`tool.poetry.version` from the `pyproject.toml` of the process's current
working directory — ambient filesystem state outside the configuration
object. -/

/-- Settings for the database service (`dsn`). -/
structure DatabaseSettings where
  dsn : String
deriving DecidableEq, Repr

/-- Settings for the API service (`port`, default 8000). -/
structure APISettings where
  port : Nat
deriving DecidableEq, Repr

/-- Settings for the users service: API and database settings. -/
structure UsersSettings where
  api : APISettings
  database : DatabaseSettings
deriving DecidableEq, Repr

/-- Settings for the application: users settings. -/
structure AppSettings where
  users : UsersSettings
deriving DecidableEq, Repr

/-- Ambient state outside the configuration object that the construction
chain reads: the `tool.poetry.version` value of the `pyproject.toml` found in
the process's current working directory, if any. -/
structure Ambient where
  pyproject_version : Option String
deriving DecidableEq, Repr

/-- `get_version` from app/common/utils/package.py: returns the
`tool.poetry.version` entry of the current working directory's
`pyproject.toml`, or `None` when absent. -/
def get_version (env : Ambient) : Option String :=
  env.pyproject_version

/-- The tree of services built by the `get_service` chain, with the
constructor-injected parameters of each node. -/
inductive ServiceTree where
  | database (dsn : String)
  | api (database : ServiceTree) (title : String) (version : String) (port : Nat)
  | users (api : ServiceTree)
  | root (users : ServiceTree)
deriving DecidableEq, Repr

/-- The `dependencies` property of each service class: the app service lists
its users service, the users service its API service, the API service its
database service; the database service inherits facet's default empty
list. -/
def ServiceTree.dependencies : ServiceTree → List ServiceTree
  | .database _ => []
  | .api db _ _ _ => [db]
  | .users a => [a]
  | .root u => [u]

/-- `app.users.database.get_service`: `Service(dsn=str(settings.dsn))`. -/
def database_get_service (settings : DatabaseSettings) : ServiceTree :=
  .database settings.dsn

/-- `app.users.api.get_service`: `Service(database=database,
version=get_version() or "0.0.0", port=settings.port)`, where the `Service`
constructor passes `title="Users"` to `BaseAPIService`. -/
def api_get_service (env : Ambient) (database : ServiceTree) (settings : APISettings) :
    ServiceTree :=
  .api database "Users" ((get_version env).getD "0.0.0") settings.port

/-- `app.users.get_service`: builds the database service from
`settings.database`, the API service from it and `settings.api`, and wraps
the API service. -/
def users_get_service (env : Ambient) (settings : UsersSettings) : ServiceTree :=
  let database_service := database_get_service settings.database
  let api_service := api_get_service env database_service settings.api
  .users api_service

/-- `app.get_service`: wraps the users service built from `settings.users`. -/
def app_get_service (env : Ambient) (settings : AppSettings) : ServiceTree :=
  .root (users_get_service env settings.users)

/-! ## The Service Runner

Modelled from the spec: the runner is the external `facet.ServiceMixin`
runtime, absent from the sources; §4.3 of the specification gives its
algorithm.  Startup visits the dependency tree in post-order (a unit's
dependencies start before the unit itself; this model realizes sibling
dependencies sequentially in list order, one legal realization).  If a
unit's `start` fails, no further unit is started, the units already started
are stopped in reverse of the realized start order, and the originating
error is surfaced.  If startup succeeds, shutdown stops every started unit
exactly once in reverse start order. -/

/-- A tree of lifecycle units: each node has an identity, a flag telling
whether its `start` succeeds, and its ordered dependency list. -/
inductive UnitTree where
  | node (id : Nat) (startOk : Bool) (deps : List UnitTree)

mutual

/-- Post-order of a unit tree: dependencies first, then the unit — the
runner's start order. -/
def postOrder : UnitTree → List Nat
  | .node i _ deps => postOrderList deps ++ [i]

/-- Post-order of a dependency forest, left to right. -/
def postOrderList : List UnitTree → List Nat
  | [] => []
  | t :: ts => postOrder t ++ postOrderList ts

end

mutual

/-- Whether every unit's `start` in the tree succeeds. -/
def allOkB : UnitTree → Bool
  | .node _ ok deps => ok && allOkListB deps

/-- Whether every unit's `start` in the forest succeeds. -/
def allOkListB : List UnitTree → Bool
  | [] => true
  | t :: ts => allOkB t && allOkListB ts

end

mutual

/-- Whether `e` is the identity of some unit in the tree whose `start`
fails. -/
def failsB (e : Nat) : UnitTree → Bool
  | .node i ok deps => (e == i && !ok) || failsListB e deps

/-- Whether `e` is the identity of some unit in the forest whose `start`
fails. -/
def failsListB (e : Nat) : List UnitTree → Bool
  | [] => false
  | t :: ts => failsB e t || failsListB e ts

end

mutual

/-- Startup of one unit, given the identities already started (in completion
order): first start the dependency forest; on failure abort with the
originating unit's identity; otherwise run the unit's own `start`, appending
its identity on success and failing with it otherwise. -/
def startUnit : UnitTree → List Nat → List Nat × Option Nat
  | .node i ok deps, acc =>
    match startForest deps acc with
    | (acc', some e) => (acc', some e)
    | (acc', none) => if ok then (acc' ++ [i], none) else (acc', some i)

/-- Startup of a dependency forest, left to right, aborting at the first
failure. -/
def startForest : List UnitTree → List Nat → List Nat × Option Nat
  | [], acc => (acc, none)
  | t :: ts, acc =>
    match startUnit t acc with
    | (acc', some e) => (acc', some e)
    | (acc', none) => startForest ts acc'

end

/-- One full runner cycle: the realized sequence of completed `start`s, the
sequence of `stop` invocations, and the primary error surfaced to the
caller. -/
structure RunnerTrace where
  starts : List Nat
  stops : List Nat
  error : Option Nat
deriving DecidableEq, Repr

/-- The runner on a unit tree: perform startup from the root; whatever the
outcome, stop every unit that completed `start`, exactly once, in reverse of
the realized start order, and surface the startup error, if any, as the
primary error. -/
def runRunner (t : UnitTree) : RunnerTrace :=
  match startUnit t [] with
  | (started, e) => { starts := started, stops := started.reverse, error := e }

/-! ## Theorems -/

/-- C1, counterexample: a fatal service-run error does not map to a non-zero
exit status — with loguru's default `reraise=False`, `@logger.catch` suppresses
the exception and the `run` command exits with status 0. -/
theorem C1_counterexample :
    (cli_run (Except.error "service start failed")).exit_code = 0 := rfl

/-- C1 (amended): whatever the outcome of the service run, the `run` command
exits with status 0; a fatal error is logged by `@logger.catch` — so it is
not silent — but it is never reflected in the process exit status. -/
theorem C1_run_always_exits_zero (e : String) :
    (cli_run (Except.error e)).exit_code = 0 ∧
    (cli_run (Except.error e)).logged_errors = [e] ∧
    (cli_run (Except.ok ())).exit_code = 0 ∧
    (cli_run (Except.ok ())).logged_errors = [] :=
  ⟨rfl, rfl, rfl, rfl⟩

/-- C4: for every state of the API unit and of the database unit, `stop`
returns without error and leaves the unit's state exactly as it was — so
calling it on a never-started or already-stopped unit raises nothing and
performs no duplicate side effect on the unit's state. -/
theorem C4_stop_never_raises_and_preserves_state
    (svc : APIServiceData) (st : UnitState) (log : List String) :
    (∃ l, BaseAPIService.stop svc st log = Except.ok (st, l)) ∧
    (∃ l, BaseDatabaseService.stop st log = Except.ok (st, l)) :=
  ⟨⟨log ++ ["Stop API service " ++ svc.title], rfl⟩,
   ⟨log ++ ["Stop Database service"], rfl⟩⟩

/-- C5, counterexample: the `get_user` HTTP handler does invoke the trained
model (via `predict_user_activity`), and importing the handlers module does
perform model training (the module body of `dependencies.py` fits and dumps
the model at import time). -/
theorem C5_counterexample :
    Effect.predictActivity ∈ get_user_handler_effects ∧
    Effect.trainModel ∈ importHandlersModule := by
  decide

/-- C5 (amended): the embedded model-training script is live code, not dead
code — it trains and dumps the model whenever the dependencies module is
imported (hence whenever the handlers module is imported), and the
GET /users/{user_id} handler loads the model and uses its prediction; the
GET /users/ list handler, by contrast, never touches the model. -/
theorem C5_model_script_is_live :
    importDependenciesModule = [Effect.trainModel, Effect.dumpModelToFile] ∧
    importHandlersModule = importDependenciesModule ∧
    get_user_handler_effects =
      [Effect.dbSelectUser, Effect.loadModelFromFile, Effect.predictActivity] ∧
    Effect.predictActivity ∉ get_users_handler_effects ∧
    Effect.trainModel ∉ get_users_handler_effects := by
  refine ⟨rfl, rfl, rfl, ?_, ?_⟩ <;> decide

/-- C6, counterexample: two runs of the `get_service` chain on equal
configuration objects but under different ambient `pyproject.toml` contents
produce different unit trees — the API unit's `version` constructor argument
comes from `get_version`, which reads the current working directory's
`pyproject.toml`, hidden global state outside the configuration. -/
theorem C6_counterexample :
    app_get_service { pyproject_version := some "1.0.0" }
        { users := { api := { port := 8000 },
                     database := { dsn := "sqlite+aiosqlite:///users.sqlite3" } } } ≠
    app_get_service { pyproject_version := none }
        { users := { api := { port := 8000 },
                     database := { dsn := "sqlite+aiosqlite:///users.sqlite3" } } } := by
  decide

/-- C6 (amended): the `get_service` construction chain is deterministic as a
function of the configuration object together with the ambient
`pyproject.toml` version read by `get_version`: two runs with equal
configuration and equal `get_version` result build identical trees. -/
theorem C6_deterministic_given_ambient (env₁ env₂ : Ambient) (s₁ s₂ : AppSettings)
    (hs : s₁ = s₂) (hv : get_version env₁ = get_version env₂) :
    app_get_service env₁ s₁ = app_get_service env₂ s₂ := by
  subst hs
  simp [app_get_service, users_get_service, api_get_service, database_get_service, hv]

/-- C6 witness: the amended determinism theorem applied at a concrete
configuration and ambient state. -/
theorem C6_deterministic_witness :
    app_get_service { pyproject_version := some "1.2.3" }
        { users := { api := { port := 80 }, database := { dsn := "postgres://db" } } } =
    app_get_service { pyproject_version := some "1.2.3" }
        { users := { api := { port := 80 }, database := { dsn := "postgres://db" } } } :=
  C6_deterministic_given_ambient _ _ _ _ rfl rfl

/-- C7: for every configuration (and ambient state), the composed tree is the
finite linear chain root → users → API → database: each `dependencies` list
is exactly the singleton of the next unit, the database unit is a leaf, and
the whole tree is the fixed term determined by the configuration — nothing
can add or remove units afterwards. -/
theorem C7_linear_chain (env : Ambient) (s : AppSettings) :
    (app_get_service env s).dependencies = [users_get_service env s.users] ∧
    (users_get_service env s.users).dependencies =
      [api_get_service env (database_get_service s.users.database) s.users.api] ∧
    (api_get_service env (database_get_service s.users.database) s.users.api).dependencies =
      [database_get_service s.users.database] ∧
    (database_get_service s.users.database).dependencies = [] ∧
    app_get_service env s =
      ServiceTree.root (ServiceTree.users (ServiceTree.api
        (ServiceTree.database s.users.database.dsn) "Users"
        ((get_version env).getD "0.0.0") s.users.api.port)) :=
  ⟨rfl, rfl, rfl, rfl, rfl⟩

/-- C9: `update_user` assigns only `username` and `email`, each only when the
corresponding argument is not the `Empty` sentinel; `id`,
`registration_date` and `updated_registration_date` are untouched, every
other row of the store is untouched, and the returned object is the updated
user that was passed in. -/
theorem C9_update_user_frame (store : List User) (user : User)
    (username email : Emptyable (Option String)) :
    (Service.update_user user username email).id = user.id ∧
    (Service.update_user user username email).registration_date = user.registration_date ∧
    (Service.update_user user username email).updated_registration_date =
      user.updated_registration_date ∧
    (username = Emptyable.empty →
      (Service.update_user user username email).username = user.username) ∧
    (∀ v, username = Emptyable.value v →
      (Service.update_user user username email).username = v) ∧
    (email = Emptyable.empty →
      (Service.update_user user username email).email = user.email) ∧
    (∀ v, email = Emptyable.value v →
      (Service.update_user user username email).email = v) ∧
    (Service.update_user_store store user username email).1 =
      Service.update_user user username email ∧
    (∀ w ∈ store, w.id ≠ user.id →
      w ∈ (Service.update_user_store store user username email).2) := by
  refine ⟨?_, ?_, ?_, ?_, ?_, ?_, ?_, rfl, ?_⟩
  · cases username <;> cases email <;> rfl
  · cases username <;> cases email <;> rfl
  · cases username <;> cases email <;> rfl
  · rintro rfl; cases email <;> rfl
  · rintro v rfl; cases email <;> rfl
  · rintro rfl; cases username <;> rfl
  · rintro v rfl; cases username <;> rfl
  · intro w hw hne
    have := List.mem_map_of_mem
      (fun w => if w.id = user.id then Service.update_user user username email else w) hw
    simpa [Service.update_user_store, if_neg hne] using this

/-- C9 witness: the frame theorem applied to a concrete two-row store, a
supplied username update and an `Empty` email. -/
theorem C9_update_user_frame_witness :
    (Service.update_user
      { id := 1, username := some "alice", email := some "alice@example.com",
        registration_date := 10, updated_registration_date := 20 }
      (Emptyable.value (some "bob")) Emptyable.empty).username = some "bob" ∧
    (Service.update_user
      { id := 1, username := some "alice", email := some "alice@example.com",
        registration_date := 10, updated_registration_date := 20 }
      (Emptyable.value (some "bob")) Emptyable.empty).email = some "alice@example.com" ∧
    ({ id := 2, username := some "carol", email := some "carol@example.com",
       registration_date := 11, updated_registration_date := 21 } : User) ∈
      (Service.update_user_store
        [{ id := 1, username := some "alice", email := some "alice@example.com",
           registration_date := 10, updated_registration_date := 20 },
         { id := 2, username := some "carol", email := some "carol@example.com",
           registration_date := 11, updated_registration_date := 21 }]
        { id := 1, username := some "alice", email := some "alice@example.com",
          registration_date := 10, updated_registration_date := 20 }
        (Emptyable.value (some "bob")) Emptyable.empty).2 :=
  let h := C9_update_user_frame
    [{ id := 1, username := some "alice", email := some "alice@example.com",
       registration_date := 10, updated_registration_date := 20 },
     { id := 2, username := some "carol", email := some "carol@example.com",
       registration_date := 11, updated_registration_date := 21 }]
    { id := 1, username := some "alice", email := some "alice@example.com",
      registration_date := 10, updated_registration_date := 20 }
    (Emptyable.value (some "bob")) Emptyable.empty
  ⟨h.2.2.2.2.1 (some "bob") rfl, h.2.2.2.2.2.1 rfl,
   h.2.2.2.2.2.2.2.2 _ (by decide) (by decide)⟩

mutual

/-- When every `start` in the tree succeeds, startup appends exactly the
post-order of the tree and reports no error. -/
theorem startUnit_allOk : ∀ (t : UnitTree), allOkB t = true →
    ∀ acc, startUnit t acc = (acc ++ postOrder t, none)
  | .node i ok deps => fun h acc => by
    rw [allOkB, Bool.and_eq_true] at h
    have hd := startForest_allOk deps h.2 acc
    simp [startUnit, postOrder, hd, h.1]

/-- When every `start` in the forest succeeds, startup appends exactly the
post-order of the forest and reports no error. -/
theorem startForest_allOk : ∀ (ts : List UnitTree), allOkListB ts = true →
    ∀ acc, startForest ts acc = (acc ++ postOrderList ts, none)
  | [] => fun _ acc => by simp [startForest, postOrderList]
  | t :: ts => fun h acc => by
    rw [allOkListB, Bool.and_eq_true] at h
    have h1 := startUnit_allOk t h.1 acc
    have h2 := startForest_allOk ts h.2 (acc ++ postOrder t)
    simp [startForest, h1, h2, postOrderList]

end

mutual

/-- Startup of a unit appends some block `σ` to the accumulator; on success
`σ` is the whole post-order, and on failure with unit `e`, `σ ++ [e]` is a
prefix of the post-order and `e` names a unit of the tree whose `start`
fails. -/
theorem startUnit_spec : ∀ (t : UnitTree) (acc : List Nat),
    ∃ σ, (startUnit t acc).1 = acc ++ σ ∧
      ((startUnit t acc).2 = none → σ = postOrder t) ∧
      (∀ e, (startUnit t acc).2 = some e →
        σ ++ [e] <+: postOrder t ∧ failsB e t = true)
  | .node i ok deps, acc => by
    obtain ⟨σ, h1, h2, h3⟩ := startForest_spec deps acc
    rcases hSF : startForest deps acc with ⟨acc', err⟩
    rw [hSF] at h1 h2 h3
    cases err with
    | some e =>
      refine ⟨σ, ?_, ?_, ?_⟩
      · simp [startUnit, hSF]; exact h1
      · simp [startUnit, hSF]
      · intro e' he'
        simp [startUnit, hSF] at he'
        subst he'
        obtain ⟨hpre, hfail⟩ := h3 e rfl
        refine ⟨hpre.trans (List.prefix_append _ _), ?_⟩
        simp [failsB, hfail]
    | none =>
      have hσ : σ = postOrderList deps := h2 rfl
      subst hσ
      cases ok with
      | true =>
        refine ⟨postOrderList deps ++ [i], ?_, ?_, ?_⟩
        · simp only [startUnit, hSF]
          rw [show acc' = acc ++ postOrderList deps from h1]
          simp
        · intro _; simp [postOrder]
        · intro e' he'; simp [startUnit, hSF] at he'
      | false =>
        refine ⟨postOrderList deps, ?_, ?_, ?_⟩
        · simp [startUnit, hSF]; exact h1
        · intro hcontra; simp [startUnit, hSF] at hcontra
        · intro e' he'
          simp [startUnit, hSF] at he'
          subst he'
          refine ⟨?_, ?_⟩
          · simp [postOrder]
          · simp [failsB]

/-- Startup of a forest appends some block `σ` to the accumulator; on
success `σ` is the whole post-order of the forest, and on failure with unit
`e`, `σ ++ [e]` is a prefix of that post-order and `e` names a unit of the
forest whose `start` fails. -/
theorem startForest_spec : ∀ (ts : List UnitTree) (acc : List Nat),
    ∃ σ, (startForest ts acc).1 = acc ++ σ ∧
      ((startForest ts acc).2 = none → σ = postOrderList ts) ∧
      (∀ e, (startForest ts acc).2 = some e →
        σ ++ [e] <+: postOrderList ts ∧ failsListB e ts = true)
  | [], acc => by
    refine ⟨[], by simp [startForest], fun _ => rfl, ?_⟩
    intro e he; simp [startForest] at he
  | t :: ts, acc => by
    obtain ⟨σ, h1, h2, h3⟩ := startUnit_spec t acc
    rcases hSU : startUnit t acc with ⟨acc', err⟩
    rw [hSU] at h1 h2 h3
    cases err with
    | some e =>
      refine ⟨σ, ?_, ?_, ?_⟩
      · simp [startForest, hSU]; exact h1
      · simp [startForest, hSU]
      · intro e' he'
        simp [startForest, hSU] at he'
        subst he'
        obtain ⟨hpre, hfail⟩ := h3 e rfl
        refine ⟨hpre.trans (List.prefix_append _ _), ?_⟩
        simp [failsListB, hfail]
    | none =>
      have hσ : σ = postOrder t := h2 rfl
      subst hσ
      obtain ⟨σ', g1, g2, g3⟩ := startForest_spec ts acc'
      refine ⟨postOrder t ++ σ', ?_, ?_, ?_⟩
      · simp only [startForest, hSU]
        rw [g1, show acc' = acc ++ postOrder t from h1]
        simp
      · intro hnone
        simp [startForest, hSU] at hnone
        rw [g2 hnone, postOrderList]
      · intro e' he'
        simp [startForest, hSU] at he'
        obtain ⟨hpre, hfail⟩ := g3 e' he'
        obtain ⟨r, hr⟩ := hpre
        refine ⟨⟨r, ?_⟩, ?_⟩
        · rw [postOrderList, ← hr]; simp
        · simp [failsListB, hfail]

end

/-- C2: for a tree in which every unit's `start` succeeds, the runner's
realized start order is the post-order of the tree, no error is reported,
and the stop order is exactly the reverse of the realized start order. -/
theorem C2_stop_order_reverse_of_start (t : UnitTree) (h : allOkB t = true) :
    (runRunner t).starts = postOrder t ∧
    (runRunner t).stops = (runRunner t).starts.reverse ∧
    (runRunner t).error = none := by
  have hs := startUnit_allOk t h []
  simp [runRunner, hs]

/-- C2 witness: the reverse-order theorem applied to the concrete linear
chain database → API → users domain → root, all starts succeeding. -/
theorem C2_stop_order_reverse_of_start_witness :
    (runRunner (UnitTree.node 3 true [UnitTree.node 2 true
      [UnitTree.node 1 true [UnitTree.node 0 true []]]])).starts = [0, 1, 2, 3] ∧
    (runRunner (UnitTree.node 3 true [UnitTree.node 2 true
      [UnitTree.node 1 true [UnitTree.node 0 true []]]])).stops = [3, 2, 1, 0] ∧
    (runRunner (UnitTree.node 3 true [UnitTree.node 2 true
      [UnitTree.node 1 true [UnitTree.node 0 true []]]])).error = none :=
  let h := C2_stop_order_reverse_of_start
    (UnitTree.node 3 true [UnitTree.node 2 true
      [UnitTree.node 1 true [UnitTree.node 0 true []]]]) (by decide)
  ⟨by rw [h.1]; rfl, by rw [h.2.1]; rfl, h.2.2⟩

/-- C3: if the runner reports a startup failure of unit `e`, then the units
with completed `start` are exactly those preceding `e` in start order
(`starts ++ [e]` is a prefix of the post-order, so no later unit was
started), every started unit is stopped exactly once in reverse start order,
no never-started unit is stopped, and the surfaced error names a unit whose
`start` fails. -/
theorem C3_startup_failure_teardown (t : UnitTree) (e : Nat)
    (herr : (runRunner t).error = some e) (hnodup : (postOrder t).Nodup) :
    ((runRunner t).starts ++ [e]) <+: postOrder t ∧
    (runRunner t).stops = (runRunner t).starts.reverse ∧
    (∀ u ∈ (runRunner t).starts, (runRunner t).stops.count u = 1) ∧
    (∀ u, u ∉ (runRunner t).starts → u ∉ (runRunner t).stops) ∧
    failsB e t = true := by
  obtain ⟨σ, h1, _, h3⟩ := startUnit_spec t []
  rcases hSU : startUnit t [] with ⟨started, err⟩
  rw [hSU] at h1 h3
  have hst : started = σ := by simpa using h1
  have herr' : err = some e := by
    have hx : (runRunner t).error = err := by simp [runRunner, hSU]
    rw [hx] at herr; exact herr
  obtain ⟨hpre, hfail⟩ := h3 e (by rw [herr'])
  have hstarts : (runRunner t).starts = σ := by simp [runRunner, hSU, hst]
  have hstops : (runRunner t).stops = σ.reverse := by simp [runRunner, hSU, hst]
  have hnd : (σ ++ [e]).Nodup := hnodup.sublist hpre.sublist
  have hndσ : σ.Nodup := (List.nodup_append.mp hnd).1
  rw [hstarts, hstops]
  refine ⟨hpre, rfl, ?_, ?_, hfail⟩
  · intro u hu
    rw [List.count_reverse]
    exact List.count_eq_one_of_mem hndσ hu
  · intro u hu
    rw [List.mem_reverse]
    exact hu

/-- C3 witness: the startup-failure theorem applied to the concrete tree of
the specification's scenario — two dependencies start, the root's `start`
fails — checking teardown order and the surfaced error. -/
theorem C3_startup_failure_teardown_witness :
    ((runRunner (UnitTree.node 3 false
        [UnitTree.node 1 true [], UnitTree.node 2 true []])).starts ++ [3]) <+:
      postOrder (UnitTree.node 3 false
        [UnitTree.node 1 true [], UnitTree.node 2 true []]) ∧
    (runRunner (UnitTree.node 3 false
        [UnitTree.node 1 true [], UnitTree.node 2 true []])).stops =
      (runRunner (UnitTree.node 3 false
        [UnitTree.node 1 true [], UnitTree.node 2 true []])).starts.reverse ∧
    failsB 3 (UnitTree.node 3 false
      [UnitTree.node 1 true [], UnitTree.node 2 true []]) = true :=
  let h := C3_startup_failure_teardown
    (UnitTree.node 3 false [UnitTree.node 1 true [], UnitTree.node 2 true []])
    3 rfl (by decide)
  ⟨h.1, h.2.1, h.2.2.2.2⟩

/-- In a store whose ids are pairwise distinct (the `users.id` primary key),
the select by a stored user's id matches exactly that user. -/
theorem filter_id_eq_singleton {store : List User} {u : User}
    (hnodup : (store.map User.id).Nodup) (hu : u ∈ store) :
    store.filter (fun w => w.id == u.id) = [u] := by
  induction store with
  | nil => cases hu
  | cons v rest ih =>
    rw [List.map_cons, List.nodup_cons] at hnodup
    rcases List.mem_cons.mp hu with rfl | hmem
    · have hrest : rest.filter (fun w => w.id == u.id) = [] := by
        rw [List.filter_eq_nil_iff]
        intro w hw
        simp only [beq_iff_eq]
        intro hEq
        exact hnodup.1 (hEq ▸ List.mem_map_of_mem User.id hw)
      simp [List.filter_cons, hrest]
    · have hne : v.id ≠ u.id := by
        intro hEq
        exact hnodup.1 (hEq ▸ List.mem_map_of_mem User.id hmem)
      simp [List.filter_cons, hne, ih hnodup.2 hmem]

/-- C8: with the primary-key invariant (pairwise distinct ids),
`get_path_user` returns the stored user with the requested id when one
exists, and raises `HTTPNotFound` — status 404, detail "Not found." — exactly
when none exists, leaving the store unchanged in that case. -/
theorem C8_get_path_user_found_or_404 (store : List User) (user_id : Int)
    (hnodup : (store.map User.id).Nodup) :
    (∀ u ∈ store, u.id = user_id → get_path_user store user_id = (Except.ok u, store)) ∧
    ((∀ u ∈ store, u.id ≠ user_id) →
      get_path_user store user_id = (Except.error (APIError.http HTTPNotFound), store)) ∧
    HTTPNotFound.status_code = 404 ∧
    HTTPNotFound.detail = "Not found." := by
  refine ⟨?_, ?_, rfl, rfl⟩
  · intro u hu hid
    subst hid
    have hf := filter_id_eq_singleton hnodup hu
    simp [get_path_user, Service.get_user, scalarOneOrNone, hf]
  · intro hall
    have hf : store.filter (fun w => w.id == user_id) = [] := by
      rw [List.filter_eq_nil_iff]
      intro w hw
      simpa using hall w hw
    simp [get_path_user, Service.get_user, scalarOneOrNone, hf]

/-- C8 witness: the path-dependency theorem applied to a concrete one-user
store, for the stored id and for a missing id. -/
theorem C8_get_path_user_witness :
    get_path_user
      [{ id := 1, username := some "alice", email := some "alice@example.com",
         registration_date := 10, updated_registration_date := 20 }] 1 =
      (Except.ok
        { id := 1, username := some "alice", email := some "alice@example.com",
          registration_date := 10, updated_registration_date := 20 },
       [{ id := 1, username := some "alice", email := some "alice@example.com",
          registration_date := 10, updated_registration_date := 20 }]) ∧
    get_path_user
      [{ id := 1, username := some "alice", email := some "alice@example.com",
         registration_date := 10, updated_registration_date := 20 }] 2 =
      (Except.error (APIError.http HTTPNotFound),
       [{ id := 1, username := some "alice", email := some "alice@example.com",
          registration_date := 10, updated_registration_date := 20 }]) :=
  ⟨(C8_get_path_user_found_or_404 _ 1 (by decide)).1 _ (by decide) rfl,
   (C8_get_path_user_found_or_404 _ 2 (by decide)).2.1 (by decide)⟩

/-- Python's `-(n // -pp)` with floor division is the ceiling of `n / pp`,
stated over the naturals as `(n + pp - 1) / pp`. -/
theorem neg_fdiv_neg_eq_ceil (n pp : Nat) (h : 0 < pp) :
    -(Int.fdiv (n : Int) (-(pp : Int))) = ((n + pp - 1) / pp : Nat) := by
  obtain ⟨k, rfl⟩ : ∃ k, pp = k + 1 := ⟨pp - 1, by omega⟩
  cases n with
  | zero =>
    have h0 : ((0 : Nat) : Int) = 0 := rfl
    rw [h0, Int.zero_fdiv, neg_zero]
    have : (0 + (k + 1) - 1) / (k + 1) = 0 := Nat.div_eq_of_lt (by omega)
    rw [this]
    rfl
  | succ m =>
    have hfd : Int.fdiv ((Nat.succ m : Nat) : Int) (-((k + 1 : Nat) : Int)) =
        Int.negSucc (m / (k + 1)) := rfl
    rw [hfd]
    have hneg : -Int.negSucc (m / (k + 1)) = Int.ofNat (m / (k + 1) + 1) := rfl
    rw [hneg]
    have hnat : (Nat.succ m + (k + 1) - 1) / (k + 1) = m / (k + 1) + 1 := by
      have he : Nat.succ m + (k + 1) - 1 = m + (k + 1) := by omega
      rw [he, Nat.add_div_right _ (by omega)]
    rw [hnat]
    rfl

/-- C10: for `per_page > 0`, the GET /users/ handler returns `total_pages`
equal to the ceiling of the user count over `per_page` (0 when the store is
empty), `total_items` equal to the store's user count, and at most
`per_page` users in `data`. -/
theorem C10_get_users_pagination (store : List User) (p : Pagination)
    (hpp : 0 < p.per_page) :
    (get_users_handler store p).total_pages =
      ((store.length + p.per_page - 1) / p.per_page : Nat) ∧
    (store.length = 0 → (get_users_handler store p).total_pages = 0) ∧
    (get_users_handler store p).total_items = store.length ∧
    (get_users_handler store p).data.length ≤ p.per_page := by
  have hceil := neg_fdiv_neg_eq_ceil store.length p.per_page hpp
  refine ⟨?_, ?_, rfl, ?_⟩
  · simpa [get_users_handler, Service.get_user_count] using hceil
  · intro h0
    have : (store.length + p.per_page - 1) / p.per_page = 0 := by
      rw [h0]
      exact Nat.div_eq_of_lt (by omega)
    simpa [get_users_handler, Service.get_user_count, this] using hceil
  · exact List.length_take_le _ _

/-- C10 witness: the pagination theorem applied to the empty store with
`per_page = 2`. -/
theorem C10_get_users_pagination_witness :
    (get_users_handler [] { page := 1, per_page := 2 }).total_pages = 0 ∧
    (get_users_handler [] { page := 1, per_page := 2 }).total_items = 0 ∧
    (get_users_handler [] { page := 1, per_page := 2 }).data.length ≤ 2 :=
  let h := C10_get_users_pagination [] { page := 1, per_page := 2 } (by decide)
  ⟨h.2.1 rfl, h.2.2.1, h.2.2.2⟩

end UserManagementAPI
